import Mathlib

/-!
Shallow embedding of the messy e-commerce data generator
(`util/generate_sales_data.py`, class `MessyEcommerceGenerator`) and of the
archive generator's corruption injector (`archive/generate_data.py`).

Randomness model: Python's seeded PRNG draws are passed in explicitly.
A call to `random.random()` is a rational `r` (with the real program
guaranteeing `0 ≤ r < 1`); a call to `random.choice(lst)` is modelled as
uniform indexing `lst[u % len(lst)]` for an explicit natural draw `u`;
`random.randint(a, b)` is `a + u % (b - a + 1)`.  `uuid.uuid4()` reads OS
entropy, not the seeded PRNGs, so it is modelled as a function of a
separate entropy stream.
-/

namespace SalesGen

/-- Python's `random.choice(lst)`: a uniform draw from a non-empty list,
modelled by indexing with an explicit draw `u` reduced mod the length. -/
def pyChoice {α : Type} [Inhabited α] (l : List α) (u : Nat) : α :=
  l.getD (u % l.length) default

theorem pyChoice_mem {α : Type} [Inhabited α] (l : List α) (u : Nat)
    (h : l ≠ []) : pyChoice l u ∈ l := by
  have hl : 0 < l.length := List.length_pos.mpr h
  have hu : u % l.length < l.length := Nat.mod_lt _ hl
  simp only [pyChoice, List.getD_eq_getElem?_getD]
  rw [List.getElem?_eq_getElem hu]
  simp

/-- Python scalar values as they occur in the generator: `np.nan`, `None`,
strings, ints and floats (floats modelled as rationals). -/
inductive PyVal : Type where
  | NaN : PyVal
  | NoneV : PyVal
  | Str : String → PyVal
  | IntV : Int → PyVal
  | FloatV : ℚ → PyVal
deriving DecidableEq, Repr

instance : Inhabited PyVal := ⟨PyVal.NoneV⟩

/-- `pd.isna` / "already null": true exactly for `np.nan` and `None`. -/
def pyIsNa : PyVal → Bool
  | .NaN => true
  | .NoneV => true
  | _ => false

/-- Python's `isinstance(v, (int, float))`; note `np.nan` is a float. -/
def pyIsNum : PyVal → Bool
  | .NaN => true
  | .IntV _ => true
  | .FloatV _ => true
  | _ => false

/-- Python's `isinstance(v, str)`. -/
def pyIsStr : PyVal → Bool
  | .Str _ => true
  | _ => false

/-- Python's `str(v)` as used by the injector (`str(np.nan) = "nan"`,
`str(None) = "None"`); float rendering is approximated by `toString` of
the rational, which no theorem depends on. -/
def pyStr : PyVal → String
  | .NaN => "nan"
  | .NoneV => "None"
  | .Str s => s
  | .IntV n => toString n
  | .FloatV q => toString q

/-- Does `sub` occur at the head of `l`? -/
def leadMatch : List Char → List Char → Bool
  | [], _ => true
  | _ :: _, [] => false
  | c :: cs, d :: ds => c == d && leadMatch cs ds

/-- Does `sub` occur anywhere in `l`? -/
def hasSub (sub : List Char) : List Char → Bool
  | [] => leadMatch sub []
  | d :: ds => leadMatch sub (d :: ds) || hasSub sub ds

/-- Python's `sub in s` substring test. -/
def strContains (s sub : String) : Bool :=
  hasSub sub.toList s.toList

/-! ### Correlation rules (`get_order_status_for_payment`,
`get_return_refund_pair`, source lines 307-330) -/

/-- `setup_other_lookups`: `self.payment_statuses`. -/
def payment_statuses : List String := ["success", "failed", "pending"]

/-- `setup_other_lookups`: `self.return_values`. -/
def return_values : List String :=
  ["yes", "no", "pending", "true", "false", "1", "0"]

/-- `get_order_status_for_payment` (lines 307-316): order status chosen
from a payment-status-dependent pool; `u` is the `random.choice` draw. -/
def get_order_status_for_payment (payment_status : String) (u : Nat) : String :=
  if payment_status = "failed" then pyChoice ["pending", "cancelled"] u
  else if payment_status = "success" then pyChoice ["delivered", "shipped"] u
  else if payment_status = "pending" then "pending"
  else "pending"

/-- `get_return_refund_pair` (lines 318-330): draw the return flag from
`return_values` with draw `u`, then the correlated refund flag with draw
`v`. -/
def get_return_refund_pair (u v : Nat) : String × String :=
  let return_status := pyChoice return_values u
  if return_status ∈ ["yes", "true", "1"] then
    (return_status, pyChoice ["yes", "true", "1"] v)
  else if return_status = "pending" then
    (return_status, "pending")
  else
    (return_status, pyChoice ["no", "false", "0"] v)

end SalesGen

namespace SalesGen

/-- C2: for every payment status and every draw, the pre-corruption order
status produced by `get_order_status_for_payment` is: for `failed`, one of
`pending`/`cancelled`; for `success`, one of `delivered`/`shipped`; for
`pending` and for any unrecognized payment status, exactly `pending`. -/
theorem order_status_correlation (ps : String) (u : Nat) :
    (if ps = "failed" then
        get_order_status_for_payment ps u ∈ ["pending", "cancelled"]
      else if ps = "success" then
        get_order_status_for_payment ps u ∈ ["delivered", "shipped"]
      else
        get_order_status_for_payment ps u = "pending") := by
  unfold get_order_status_for_payment
  by_cases h1 : ps = "failed"
  · simpa [h1] using pyChoice_mem (α := String) ["pending", "cancelled"] u (by simp)
  · by_cases h2 : ps = "success"
    · simpa [h1, h2] using
        pyChoice_mem (α := String) ["delivered", "shipped"] u (by simp)
    · by_cases h3 : ps = "pending" <;> simp [h1, h2, h3]

/-- C3: for every pair of draws, the return/refund pair is correlated: a truthy
return spelling (`yes`/`true`/`1`) comes with a truthy refund spelling, a
`pending` return with a `pending` refund, and any falsy spelling
(`no`/`false`/`0`) with a falsy refund — in particular a falsy return is
never paired with a `pending` refund. -/
theorem return_refund_correlation (u v : Nat) :
    (if (get_return_refund_pair u v).1 ∈ ["yes", "true", "1"] then
        (get_return_refund_pair u v).2 ∈ ["yes", "true", "1"]
      else if (get_return_refund_pair u v).1 = "pending" then
        (get_return_refund_pair u v).2 = "pending"
      else
        (get_return_refund_pair u v).2 ∈ ["no", "false", "0"]) := by
  unfold get_return_refund_pair
  by_cases h1 : pyChoice return_values u ∈ (["yes", "true", "1"] : List String)
  · simpa [h1] using pyChoice_mem (α := String) ["yes", "true", "1"] v (by simp)
  · by_cases h2 : pyChoice return_values u = "pending"
    · simp [h1, h2]
    · simpa [h1, h2] using
        pyChoice_mem (α := String) ["no", "false", "0"] v (by simp)

end SalesGen

namespace SalesGen

/-! ### Registration dates (`generate_batch_data`, lines 497-507) -/

/-- Python's `random.randint(a, b)` (both ends inclusive), modelled as
`a + u % (b - a + 1)` for an explicit draw `u`. -/
def pyRandint (a b : Int) (u : Nat) : Int := a + ((u % (b - a + 1).toNat : Nat) : Int)

/-- Registration date for a row (lines 501-504): dates are modelled as
integer day numbers; `reg_date = order_date - timedelta(days=days_before)`
with `days_before = random.randint(30, 1095)`. -/
def registration_date (order_date : Int) (u : Nat) : Int :=
  order_date - pyRandint 30 1095 u

/-- C5: for every order date (as a pre-formatting, pre-corruption day
number) and every draw, the customer's registration date strictly precedes
the order date, and the gap is between 30 and 1095 days inclusive. -/
theorem registration_precedes_order (order_date : Int) (u : Nat) :
    registration_date order_date u < order_date ∧
    30 ≤ order_date - registration_date order_date u ∧
    order_date - registration_date order_date u ≤ 1095 := by
  unfold registration_date pyRandint
  have h : u % 1066 < 1066 := Nat.mod_lt _ (by norm_num)
  norm_num
  omega

/-! ### Streaming writer (`generate_csv`, lines 615-645)

`generate_csv` computes `num_batches = (total_rows + batch_size - 1) //
batch_size`, writes a first batch of `min(batch_size, total_rows)` rows
with a header, then for `batch_num` in `range(1, num_batches)` computes
`current_batch_size = min(batch_size, total_rows - batch_num*batch_size)`,
breaks if it is `≤ 0`, and otherwise appends a headerless batch of that
size.  Each write is modelled as a pair `(rows, header?)`. -/

/-- `current_batch_size = min(self.batch_size, self.total_rows -
batch_start)` (line 635), a Python int that may be negative. -/
def currentBatch (total_rows batch_size batch_num : Nat) : Int :=
  min (batch_size : Int) ((total_rows : Int) - ((batch_num * batch_size : Nat) : Int))

/-- The writer's `for batch_num in range(1, num_batches)` loop body
(lines 633-641), with the `current_batch_size <= 0: break` guard; `iters`
is the number of loop iterations remaining. -/
def csvLoop (total_rows batch_size : Nat) : Nat → Nat → List Nat
  | _, 0 => []
  | batch_num, iters + 1 =>
    if currentBatch total_rows batch_size batch_num ≤ 0 then []
    else (currentBatch total_rows batch_size batch_num).toNat ::
      csvLoop total_rows batch_size (batch_num + 1) iters

/-- `generate_csv` as the sequence of batch writes it performs: each entry
is (number of rows generated and written, whether a header row is
written).  The first write carries the header (line 626, `mode='w'`),
later writes do not (line 641, `mode='a', header=False`). -/
def generate_csv_writes (total_rows batch_size : Nat) : List (Nat × Bool) :=
  let num_batches := (total_rows + batch_size - 1) / batch_size
  (min batch_size total_rows, true) ::
    (csvLoop total_rows batch_size 1 (num_batches - 1)).map (fun s => (s, false))

/-- Total line count of the produced file: one line per data row plus one
line per header write. -/
def csv_line_count (total_rows batch_size : Nat) : Nat :=
  ((generate_csv_writes total_rows batch_size).map
    (fun w => w.1 + (if w.2 then 1 else 0))).sum

theorem csvLoop_sum (total_rows batch_size : Nat) (hbs : 0 < batch_size) :
    ∀ iters batch_num,
      (csvLoop total_rows batch_size batch_num iters).sum =
        min (total_rows - batch_num * batch_size) (iters * batch_size) := by
  intro iters
  induction iters with
  | zero =>
    intro j
    simp [csvLoop]
  | succ n ih =>
    intro j
    rw [csvLoop]
    have e1 : (j + 1) * batch_size = j * batch_size + batch_size := by ring
    have e2 : (n + 1) * batch_size = n * batch_size + batch_size := by ring
    have hcb : currentBatch total_rows batch_size j =
        min (batch_size : Int) ((total_rows : Int) - ((j * batch_size : Nat) : Int)) :=
      rfl
    split
    · rename_i hle
      rw [hcb] at hle
      simp only [List.sum_nil]
      rw [e2]
      omega
    · rename_i hgt
      rw [hcb] at hgt
      simp only [List.sum_cons, ih (j + 1)]
      rw [hcb, e1, e2]
      omega

theorem csvLoop_length (total_rows batch_size : Nat) (hbs : 0 < batch_size) :
    ∀ iters batch_num,
      (batch_num + iters) * batch_size < total_rows + batch_size →
      (csvLoop total_rows batch_size batch_num iters).length = iters := by
  intro iters
  induction iters with
  | zero => intro j _; simp [csvLoop]
  | succ n ih =>
    intro j hj
    rw [csvLoop]
    have e1 : (j + (n + 1)) * batch_size = (j + n) * batch_size + batch_size := by ring
    have e2 : j * batch_size ≤ (j + n) * batch_size :=
      Nat.mul_le_mul_right _ (by omega)
    have hcb : currentBatch total_rows batch_size j =
        min (batch_size : Int) ((total_rows : Int) - ((j * batch_size : Nat) : Int)) :=
      rfl
    rw [e1] at hj
    split
    · rename_i hle
      rw [hcb] at hle
      exfalso
      omega
    · rename_i hgt
      have ihh := ih (j + 1) (by
        have e3 : (j + 1 + n) * batch_size = (j + n) * batch_size + batch_size := by
          ring
        omega)
      simp [ihh]

theorem csvLoop_pos (total_rows batch_size : Nat) :
    ∀ iters batch_num s,
      s ∈ csvLoop total_rows batch_size batch_num iters → 0 < s := by
  intro iters
  induction iters with
  | zero => intro j s hs; simp [csvLoop] at hs
  | succ n ih =>
    intro j s hs
    rw [csvLoop] at hs
    split at hs
    · simp at hs
    · rename_i hgt
      rcases List.mem_cons.mp hs with h | h
      · subst h; omega
      · exact ih (j + 1) s h

theorem map_pair_fst_sum (l : List Nat) :
    ((l.map (fun s => (s, false))).map Prod.fst).sum = l.sum := by
  induction l with
  | nil => rfl
  | cons a t ih => simp only [List.map_cons, List.sum_cons, ih]

theorem map_pair_snd_replicate (l : List Nat) :
    (l.map (fun s => (s, false))).map Prod.snd = List.replicate l.length false := by
  induction l with
  | nil => rfl
  | cons a t ih => simp [ih, List.replicate_succ]

theorem map_pair_line_sum (l : List Nat) :
    ((l.map (fun s => (s, false))).map
      (fun w => w.1 + (if w.2 then 1 else 0))).sum = l.sum := by
  induction l with
  | nil => rfl
  | cons a t ih => simp only [List.map_cons, List.sum_cons, ih]; rfl

/-- C6: for every positive `total_rows` and `batch_size`, the writer
performs exactly `⌈total_rows / batch_size⌉` batch-generation calls, the
written row counts sum to `total_rows`, the header is written exactly with
the first batch and never again, and no empty batch is ever emitted (the
`current_batch_size <= 0` guard short-circuits instead); consequently the
file has `total_rows + 1` lines. -/
theorem csv_writer_batches (total_rows batch_size : Nat)
    (htr : 0 < total_rows) (hbs : 0 < batch_size) :
    (generate_csv_writes total_rows batch_size).length =
        (total_rows + batch_size - 1) / batch_size ∧
    ((generate_csv_writes total_rows batch_size).map Prod.fst).sum = total_rows ∧
    (generate_csv_writes total_rows batch_size).map Prod.snd =
        true :: List.replicate
          ((generate_csv_writes total_rows batch_size).length - 1) false ∧
    (∀ w ∈ generate_csv_writes total_rows batch_size, 0 < w.1) ∧
    csv_line_count total_rows batch_size = total_rows + 1 := by
  obtain ⟨num, hnum⟩ : ∃ n, (total_rows + batch_size - 1) / batch_size = n :=
    ⟨_, rfl⟩
  have hdm := Nat.div_add_mod (total_rows + batch_size - 1) batch_size
  have hmlt : (total_rows + batch_size - 1) % batch_size < batch_size :=
    Nat.mod_lt _ hbs
  rw [hnum] at hdm
  have hcomm : batch_size * num = num * batch_size := Nat.mul_comm _ _
  have hub : total_rows ≤ num * batch_size := by omega
  have hlb : num * batch_size < total_rows + batch_size := by omega
  have hnum_pos : 0 < num := hnum ▸ Nat.div_pos (by omega) hbs
  have hrep : num * batch_size = (num - 1) * batch_size + batch_size := by
    have h1 : num = (num - 1) + 1 := by omega
    conv_lhs => rw [h1]
    ring
  have hone : 1 * batch_size = batch_size := by ring
  have hsum : (csvLoop total_rows batch_size 1 (num - 1)).sum =
      total_rows - batch_size := by
    rw [csvLoop_sum total_rows batch_size hbs]
    omega
  have hlen : (csvLoop total_rows batch_size 1 (num - 1)).length = num - 1 := by
    apply csvLoop_length total_rows batch_size hbs
    have h1 : (1 + (num - 1)) * batch_size = num * batch_size := by
      congr 1
      omega
    omega
  have hwlen : (generate_csv_writes total_rows batch_size).length = num := by
    simp only [generate_csv_writes, hnum, List.length_cons, List.length_map, hlen]
    omega
  refine ⟨?_, ?_, ?_, ?_, ?_⟩
  · rw [hnum]
    exact hwlen
  · simp only [generate_csv_writes, hnum, List.map_cons, List.sum_cons]
    rw [map_pair_fst_sum, hsum]
    omega
  · rw [hwlen]
    simp only [generate_csv_writes, hnum, List.map_cons]
    rw [map_pair_snd_replicate, hlen]
  · intro w hw
    simp only [generate_csv_writes, hnum, List.mem_cons, List.mem_map] at hw
    rcases hw with h | ⟨s, hs, hw⟩
    · subst h
      show 0 < min batch_size total_rows
      omega
    · have hpos := csvLoop_pos total_rows batch_size (num - 1) 1 s hs
      subst hw
      exact hpos
  · unfold csv_line_count
    simp only [generate_csv_writes, hnum, List.map_cons, List.sum_cons]
    rw [map_pair_line_sum, hsum]
    simp only [if_true]
    omega

/-- Witness for C6 at the spec's example configuration
`total_rows = 1000, batch_size = 500`: two generation calls, 1000 data
rows, header exactly once, 1001 lines. -/
theorem csv_writer_batches_witness :
    (generate_csv_writes 1000 500).length = (1000 + 500 - 1) / 500 ∧
    ((generate_csv_writes 1000 500).map Prod.fst).sum = 1000 ∧
    csv_line_count 1000 500 = 1001 := by
  have h := csv_writer_batches 1000 500 (by norm_num) (by norm_num)
  exact ⟨h.1, h.2.1, h.2.2.2.2⟩

end SalesGen

namespace SalesGen

/-! ### Geography catalog (`setup_geography_with_real_zips`, lines 30-67),
ZIP lookup (`get_zip_for_city_state`, lines 69-76), ZIP corruption
(`create_messy_zip`, lines 78-103), and the shipping columns of
`generate_batch_data` (lines 584-611). -/

/-- `self.city_zip_mapping` (lines 34-55): (city, state) → its real ZIP
codes. -/
def city_zip_mapping : List ((String × String) × List String) :=
  [(("New York", "NY"), ["10001", "10002", "10003", "10004", "10005", "10010", "10011", "10012", "10013", "10014"]),
   (("Los Angeles", "CA"), ["90001", "90002", "90003", "90004", "90005", "90210", "90211", "90212", "90213", "90220"]),
   (("Chicago", "IL"), ["60601", "60602", "60603", "60604", "60605", "60610", "60611", "60612", "60613", "60614"]),
   (("Houston", "TX"), ["77001", "77002", "77003", "77004", "77005", "77010", "77011", "77012", "77013", "77014"]),
   (("Phoenix", "AZ"), ["85001", "85002", "85003", "85004", "85005", "85006", "85007", "85008", "85009", "85010"]),
   (("Philadelphia", "PA"), ["19101", "19102", "19103", "19104", "19105", "19106", "19107", "19108", "19109", "19110"]),
   (("San Antonio", "TX"), ["78201", "78202", "78203", "78204", "78205", "78210", "78211", "78212", "78213", "78214"]),
   (("San Diego", "CA"), ["92101", "92102", "92103", "92104", "92105", "92106", "92107", "92108", "92109", "92110"]),
   (("Dallas", "TX"), ["75201", "75202", "75203", "75204", "75205", "75206", "75207", "75208", "75209", "75210"]),
   (("San Jose", "CA"), ["95101", "95102", "95103", "95104", "95105", "95106", "95107", "95108", "95109", "95110"]),
   (("Austin", "TX"), ["78701", "78702", "78703", "78704", "78705", "78710", "78711", "78712", "78713", "78714"]),
   (("Jacksonville", "FL"), ["32201", "32202", "32203", "32204", "32205", "32206", "32207", "32208", "32209", "32210"]),
   (("Fort Worth", "TX"), ["76101", "76102", "76103", "76104", "76105", "76106", "76107", "76108", "76109", "76110"]),
   (("Columbus", "OH"), ["43201", "43202", "43203", "43204", "43205", "43206", "43207", "43208", "43209", "43210"]),
   (("Charlotte", "NC"), ["28201", "28202", "28203", "28204", "28205", "28206", "28207", "28208", "28209", "28210"]),
   (("Seattle", "WA"), ["98101", "98102", "98103", "98104", "98105", "98106", "98107", "98108", "98109", "98110"]),
   (("Denver", "CO"), ["80201", "80202", "80203", "80204", "80205", "80206", "80207", "80208", "80209", "80210"]),
   (("Boston", "MA"), ["02101", "02102", "02103", "02104", "02105", "02106", "02107", "02108", "02109", "02110"]),
   (("Nashville", "TN"), ["37201", "37202", "37203", "37204", "37205", "37206", "37207", "37208", "37209", "37210"]),
   (("Baltimore", "MD"), ["21201", "21202", "21203", "21204", "21205", "21206", "21207", "21208", "21209", "21210"])]

/-- `self.cities_states` (line 58): the keys of the mapping. -/
def cities_states : List (String × String) := city_zip_mapping.map Prod.fst

/-- The keys of `self.valid_zips` (lines 61-65): every ZIP of the catalog,
in insertion order (ZIPs are pairwise distinct across cities, so dict
insertion never overwrites). -/
def valid_zips_keys : List String := (city_zip_mapping.map Prod.snd).flatten

/-- `zips_for(city, state)`: the ZIP list of the (city, state) entry, or
`[]` when the pair is absent. -/
def zips_for (city state : String) : List String :=
  ((city_zip_mapping.find? (fun e => e.1 == (city, state))).map Prod.snd).getD []

/-- `get_zip_for_city_state` (lines 69-76): a uniform ZIP of the pair's
list when the pair is in the mapping, else a uniform fallback over all
valid ZIPs. -/
def get_zip_for_city_state (city state : String) (u : Nat) : String :=
  if (city_zip_mapping.find? (fun e => e.1 == (city, state))).isSome then
    pyChoice (zips_for city state) u
  else
    pyChoice valid_zips_keys u

/-- Draws consumed by `create_messy_zip` (lines 78-103), one field per
random call site. -/
structure ZipDraws where
  gate : ℚ        -- `random.random() > error_rate` (line 82)
  etype : Nat     -- `random.choice(error_types)` (line 86)
  nullSub : ℚ     -- `random.random() < 0.7` (line 89)
  wrongCity : Nat -- `random.choice([cs for cs in ... if cs != ...])` (line 93)
  zipPick : Nat   -- the choice inside `get_zip_for_city_state` (line 94)
  fmtPick : Nat   -- `random.choice([...])` (line 97)
  fakeZip : Nat   -- `random.randint(10000, 99999)` (line 101)

/-- `error_types` of `create_messy_zip` (line 85). -/
def zip_error_types : List String := ["null", "mismatch", "invalid_format", "invalid_zip"]

/-- `create_messy_zip` (lines 78-103): with rate 0.15, replace a correct
ZIP by null, a ZIP of a different city/state, an invalid shape, or a
random well-formed ZIP.  Defined in the source but never invoked by
`generate_batch_data`. -/
def create_messy_zip (correct_zip city state : String) (d : ZipDraws) : PyVal :=
  if d.gate > 15/100 then .Str correct_zip
  else
    let error_type := pyChoice zip_error_types d.etype
    if error_type = "null" then
      (if d.nullSub < 7/10 then .NaN else .NoneV)
    else if error_type = "mismatch" then
      let wrong := pyChoice (cities_states.filter (fun cs => cs != (city, state)))
        d.wrongCity
      .Str (get_zip_for_city_state wrong.1 wrong.2 d.zipPick)
    else if error_type = "invalid_format" then
      .Str (pyChoice ["1234", "ABCDE", "00000-000", "ZIP123", "12AB5"] d.fmtPick)
    else if error_type = "invalid_zip" then
      .Str (toString (pyRandint 10000 99999 d.fakeZip))
    else .Str correct_zip

/-- Shipping city/state for one row (lines 591-597): with draw `r < 0.85`
echo the customer's city/state, else an independent draw from the
catalog. -/
def shipping_pair (customer_city customer_state : String) (r : ℚ) (u : Nat) :
    String × String :=
  if r < 85/100 then (customer_city, customer_state)
  else pyChoice cities_states u

/-- The shipping columns of one generated row (lines 510-513 for the
customer's city/state and 591-609 for the shipping triple): the shipping
city/state pair and the shipping ZIP, which the code appends directly from
`get_zip_for_city_state` (line 602-603) — `create_messy_zip` is never
called, despite the comments on lines 601 and 609. -/
def row_shipping (w : Nat) (r : ℚ) (u v : Nat) : (String × String) × String :=
  let cs := pyChoice cities_states w
  let ship := shipping_pair cs.1 cs.2 r u
  (ship, get_zip_for_city_state ship.1 ship.2 v)

theorem cities_states_ne_nil : cities_states ≠ [] := by
  simp [cities_states, city_zip_mapping]

theorem get_zip_mem_zips_for (c s : String) (h : (c, s) ∈ cities_states)
    (v : Nat) : get_zip_for_city_state c s v ∈ zips_for c s := by
  obtain ⟨e, he, hfst⟩ := List.mem_map.mp h
  have hbeq : (fun x : (String × String) × List String => x.1 == (c, s)) e = true := by
    simp [hfst]
  have hfind : (city_zip_mapping.find? (fun x => x.1 == (c, s))).isSome := by
    rw [List.find?_isSome]
    exact ⟨e, he, hbeq⟩
  obtain ⟨f, hf⟩ := Option.isSome_iff_exists.mp hfind
  have hfmem : f ∈ city_zip_mapping := List.mem_of_find?_eq_some hf
  have hfne : f.2 ≠ [] := by
    have hall : ∀ x ∈ city_zip_mapping, x.2 ≠ [] := by decide
    exact hall f hfmem
  unfold get_zip_for_city_state
  rw [if_pos hfind]
  apply pyChoice_mem
  unfold zips_for
  rw [hf]
  simpa using hfne

theorem shipping_pair_mem (c s : String) (h : (c, s) ∈ cities_states)
    (r : ℚ) (u : Nat) : shipping_pair c s r u ∈ cities_states := by
  unfold shipping_pair
  split
  · exact h
  · exact pyChoice_mem _ _ cities_states_ne_nil

/-- C10: for every row (every combination of draws), the shipping
city/state pair produced by `generate_batch_data` is a pair of the
geography catalog and the shipping ZIP is one of that pair's valid ZIPs —
the shipping columns never pass through any corruption routine. -/
theorem shipping_geography_consistent (w : Nat) (r : ℚ) (u v : Nat) :
    (row_shipping w r u v).1 ∈ cities_states ∧
    (row_shipping w r u v).2 ∈
      zips_for (row_shipping w r u v).1.1 (row_shipping w r u v).1.2 := by
  have hcs : pyChoice cities_states w ∈ cities_states :=
    pyChoice_mem _ _ cities_states_ne_nil
  have hcs' : ((pyChoice cities_states w).1, (pyChoice cities_states w).2) ∈
      cities_states := by
    simpa using hcs
  have hpair : (row_shipping w r u v).1 ∈ cities_states := by
    unfold row_shipping
    exact shipping_pair_mem _ _ hcs' r u
  refine ⟨hpair, ?_⟩
  have hpair' : ((row_shipping w r u v).1.1, (row_shipping w r u v).1.2) ∈
      cities_states := by
    simpa using hpair
  have hzip := get_zip_mem_zips_for _ _ hpair' v
  exact hzip

/-- Witness for C10 at a concrete draw profile. -/
theorem shipping_geography_consistent_witness :
    (row_shipping 0 (9/10) 0 0).1 ∈ cities_states ∧
    (row_shipping 0 (9/10) 0 0).2 ∈
      zips_for (row_shipping 0 (9/10) 0 0).1.1 (row_shipping 0 (9/10) 0 0).1.2 :=
  shipping_geography_consistent 0 (9/10) 0 0

/-- C4: contrary to the claim, `generate_batch_data` never routes the
shipping ZIP through `create_messy_zip`: at a draw profile whose gate
(0.1) is below the 0.15 error rate, `create_messy_zip` would corrupt the
correct ZIP `"10001"` to a null, yet the row pipeline emits the
uncorrupted `"10001"`, identical to the plain geography lookup. -/
theorem shipping_zip_never_corrupted :
    create_messy_zip "10001" "New York" "NY"
        ⟨1/10, 0, 1/2, 0, 0, 0, 0⟩ = PyVal.NaN ∧
    (row_shipping 0 (9/10) 0 0).2 = "10001" ∧
    (row_shipping 0 (9/10) 0 0).2 =
      get_zip_for_city_state (row_shipping 0 (9/10) 0 0).1.1
        (row_shipping 0 (9/10) 0 0).1.2 0 := by
  refine ⟨?_, ?_, ?_⟩
  · norm_num [create_messy_zip, pyChoice, zip_error_types]
  · norm_num [row_shipping, shipping_pair, pyChoice, cities_states,
      city_zip_mapping, get_zip_for_city_state, zips_for, List.find?]
  · norm_num [row_shipping, shipping_pair, pyChoice, cities_states,
      city_zip_mapping, get_zip_for_city_state, zips_for, List.find?]

end SalesGen

namespace SalesGen

/-! ### Warehouses (`setup_warehouses`, lines 249-272) and warehouse
selection (`generate_batch_data`, lines 534-548). -/

/-- `warehouse_cities` (lines 254-257): 10 cities hosting warehouses. -/
def warehouse_cities : List (String × String) :=
  [("New York", "NY"), ("Los Angeles", "CA"), ("Chicago", "IL"),
   ("Houston", "TX"), ("Phoenix", "AZ"), ("Philadelphia", "PA"),
   ("San Antonio", "TX"), ("San Diego", "CA"), ("Dallas", "TX"),
   ("San Jose", "CA")]

/-- Python's `f"{n:03d}"`. -/
def pad3 (n : Nat) : String :=
  let s := toString n
  String.mk (List.replicate (3 - s.length) '0') ++ s

/-- `self.warehouses` (lines 259-270): warehouse `WH_{num:03d}` with its
(city, state); warehouse `k` (0-based) sits in city `k / 5`, five per
city. -/
def warehouses : List (String × String × String) :=
  (List.range 50).map (fun k =>
    ("WH_" ++ pad3 (k + 1),
      (warehouse_cities.getD (k / 5) ("", "")).1,
      (warehouse_cities.getD (k / 5) ("", "")).2))

/-- Warehouse selection for one row (lines 536-548): if a warehouse exists
in the customer's state and the draw `r < 0.8`, a uniform choice among the
same-state warehouses; otherwise a uniform choice over all warehouses. -/
def select_warehouse (customer_state : String) (r : ℚ) (u : Nat) :
    String × String × String :=
  let same_state_warehouses := warehouses.filter (fun wh => wh.2.2 == customer_state)
  if same_state_warehouses ≠ [] ∧ r < 8/10 then
    pyChoice same_state_warehouses u
  else
    pyChoice warehouses u

/-- C9: warehouse selection is conditional — when a same-state warehouse
exists and the 0.8-probability draw fires, the selected warehouse is the
uniform choice among the same-state warehouses (in particular its state is
the customer's state); otherwise it is the uniform choice over all 50
warehouses.  Independently, with the 0.85-probability draw the shipping
city/state equals the customer's city/state, and otherwise it is an
independent uniform draw from the city catalog. -/
theorem warehouse_and_shipping_affinity (customer_state customer_city : String)
    (r₁ r₂ : ℚ) (u₁ u₂ : Nat) :
    warehouses.length = 50 ∧
    (if warehouses.filter (fun wh => wh.2.2 == customer_state) ≠ [] ∧ r₁ < 8/10 then
        select_warehouse customer_state r₁ u₁ =
          pyChoice (warehouses.filter (fun wh => wh.2.2 == customer_state)) u₁ ∧
        (select_warehouse customer_state r₁ u₁).2.2 = customer_state
      else
        select_warehouse customer_state r₁ u₁ = pyChoice warehouses u₁ ∧
        select_warehouse customer_state r₁ u₁ ∈ warehouses) ∧
    (if r₂ < 85/100 then
        shipping_pair customer_city customer_state r₂ u₂ =
          (customer_city, customer_state)
      else
        shipping_pair customer_city customer_state r₂ u₂ ∈ cities_states) := by
  refine ⟨by decide, ?_, ?_⟩
  · by_cases hc : warehouses.filter (fun wh => wh.2.2 == customer_state) ≠ [] ∧
        r₁ < 8/10
    · rw [if_pos hc]
      have hsel : select_warehouse customer_state r₁ u₁ =
          pyChoice (warehouses.filter (fun wh => wh.2.2 == customer_state)) u₁ := by
        unfold select_warehouse
        rw [if_pos hc]
      refine ⟨hsel, ?_⟩
      have hmem := pyChoice_mem _ u₁ hc.1
      have := (List.mem_filter.mp hmem).2
      rw [hsel]
      exact beq_iff_eq.mp this
    · rw [if_neg hc]
      have hsel : select_warehouse customer_state r₁ u₁ = pyChoice warehouses u₁ := by
        unfold select_warehouse
        rw [if_neg hc]
      exact ⟨hsel, hsel ▸ pyChoice_mem _ u₁ (by decide)⟩
  · unfold shipping_pair
    split
    · rfl
    · exact pyChoice_mem _ _ cities_states_ne_nil

end SalesGen

namespace SalesGen

/-! ### Weighted customer draw list (`setup_customers`, lines 158-171)

`customer_ids = list(self.customers.keys())` is the list of the 2,500
distinct dict keys in insertion order (one `uuid4` key per first/last name
combination); it is modelled as an arbitrary duplicate-free list of length
2500.  `heavy_buyers = customer_ids[:500]`, `moderate_buyers =
customer_ids[500:1250]`, `light_buyers = customer_ids[1250:]`, and
`self.weighted_customers = heavy_buyers * 8 + moderate_buyers * 3 +
light_buyers * 1`. -/

/-- Python `lst * n`: the list concatenated with itself `n` times. -/
def repList {α : Type} (l : List α) (n : Nat) : List α :=
  (List.replicate n l).flatten

/-- `self.weighted_customers` (line 169). -/
def weighted_customers {α : Type} (ids : List α) : List α :=
  repList (ids.take 500) 8 ++ repList ((ids.drop 500).take 750) 3 ++
    repList (ids.drop 1250) 1

theorem count_repList {α : Type} [DecidableEq α] (x : α) (l : List α) (n : Nat) :
    (repList l n).count x = n * l.count x := by
  induction n with
  | zero => simp [repList]
  | succ m ih =>
    simp only [repList, List.replicate_succ, List.flatten_cons, List.count_append]
    rw [repList] at ih
    rw [ih]
    ring

theorem mem_repList {α : Type} {x : α} {l : List α} {n : Nat}
    (h : x ∈ repList l n) : x ∈ l := by
  simp only [repList, List.mem_flatten] at h
  obtain ⟨s, hs, hx⟩ := h
  rwa [List.eq_of_mem_replicate hs] at hx

/-- C8: over the customer-id list (2,500 distinct keys in insertion
order), the weighted draw list is the heavy tier (ids[:500]) with
multiplicity 8, the moderate tier (ids[500:1250]) with multiplicity 3 and
the light tier (ids[1250:]) with multiplicity 1: the three tiers partition
the id set exactly (sizes 500/750/1250, pairwise disjoint, no gaps), every
id in the draw list is a key of the customer mapping, and each heavy id
occurs exactly 8 times in the list against 3 for a moderate id and 1 for a
light id. -/
theorem weighted_customers_spec {α : Type} [DecidableEq α] (ids : List α)
    (hlen : ids.length = 2500) (hnodup : ids.Nodup) :
    ids.take 500 ++ (ids.drop 500).take 750 ++ ids.drop 1250 = ids ∧
    ((ids.take 500).length = 500 ∧ ((ids.drop 500).take 750).length = 750 ∧
      (ids.drop 1250).length = 1250) ∧
    ((ids.take 500).Disjoint ((ids.drop 500).take 750) ∧
      (ids.take 500).Disjoint (ids.drop 1250) ∧
      ((ids.drop 500).take 750).Disjoint (ids.drop 1250)) ∧
    (∀ x ∈ weighted_customers ids, x ∈ ids) ∧
    (∀ x ∈ ids.take 500, (weighted_customers ids).count x = 8) ∧
    (∀ x ∈ (ids.drop 500).take 750, (weighted_customers ids).count x = 3) ∧
    (∀ x ∈ ids.drop 1250, (weighted_customers ids).count x = 1) := by
  have hdd : (ids.drop 500).drop 750 = ids.drop 1250 := by
    rw [List.drop_drop]
  have hpart : ids.take 500 ++ ((ids.drop 500).take 750 ++ ids.drop 1250) = ids := by
    rw [← hdd, List.take_append_drop, List.take_append_drop]
  have hpart' : ids.take 500 ++ (ids.drop 500).take 750 ++ ids.drop 1250 = ids := by
    rw [List.append_assoc]
    exact hpart
  have hnd : (ids.take 500 ++ ((ids.drop 500).take 750 ++ ids.drop 1250)).Nodup := by
    rw [hpart]
    exact hnodup
  rw [List.nodup_append] at hnd
  obtain ⟨hnd1, hnd23, hdisj⟩ := hnd
  rw [List.nodup_append] at hnd23
  obtain ⟨hnd2, hnd3, hdisj23⟩ := hnd23
  rw [List.disjoint_append_right] at hdisj
  have hcount : ∀ x : α, (weighted_customers ids).count x =
      8 * (ids.take 500).count x + 3 * ((ids.drop 500).take 750).count x +
        1 * (ids.drop 1250).count x := by
    intro x
    simp only [weighted_customers, List.count_append, count_repList]
  refine ⟨hpart', ?_, ⟨hdisj.1, hdisj.2, hdisj23⟩, ?_, ?_, ?_, ?_⟩
  · refine ⟨?_, ?_, ?_⟩
    · rw [List.length_take]
      omega
    · rw [List.length_take, List.length_drop]
      omega
    · rw [List.length_drop]
      omega
  · intro x hx
    simp only [weighted_customers, List.mem_append] at hx
    rcases hx with (h | h) | h
    · exact List.take_subset _ _ (mem_repList h)
    · exact List.drop_subset _ _ (List.take_subset _ _ (mem_repList h))
    · exact List.drop_subset _ _ (mem_repList h)
  · intro x hx
    rw [hcount x]
    have h1 : (ids.take 500).count x = 1 := List.count_eq_one_of_mem hnd1 hx
    have h2 : ((ids.drop 500).take 750).count x = 0 :=
      List.count_eq_zero_of_not_mem (hdisj.1 hx)
    have h3 : (ids.drop 1250).count x = 0 :=
      List.count_eq_zero_of_not_mem (hdisj.2 hx)
    rw [h1, h2, h3]
  · intro x hx
    rw [hcount x]
    have h1 : (ids.take 500).count x = 0 :=
      List.count_eq_zero_of_not_mem (fun hmem => hdisj.1 hmem hx)
    have h2 : ((ids.drop 500).take 750).count x = 1 :=
      List.count_eq_one_of_mem hnd2 hx
    have h3 : (ids.drop 1250).count x = 0 :=
      List.count_eq_zero_of_not_mem (hdisj23 hx)
    rw [h1, h2, h3]
  · intro x hx
    rw [hcount x]
    have h1 : (ids.take 500).count x = 0 :=
      List.count_eq_zero_of_not_mem (fun hmem => hdisj.2 hmem hx)
    have h2 : ((ids.drop 500).take 750).count x = 0 :=
      List.count_eq_zero_of_not_mem (fun hmem => hdisj23 hmem hx)
    have h3 : (ids.drop 1250).count x = 1 :=
      List.count_eq_one_of_mem hnd3 hx
    rw [h1, h2, h3]

/-- Witness for C8 at the concrete duplicate-free id list
`List.range 2500`. -/
theorem weighted_customers_spec_witness :
    (List.range 2500).take 500 ++ ((List.range 2500).drop 500).take 750 ++
        (List.range 2500).drop 1250 = List.range 2500 ∧
    (∀ x ∈ (List.range 2500).take 500,
      (weighted_customers (List.range 2500)).count x = 8) := by
  have h := weighted_customers_spec (List.range 2500) (by simp)
    (List.nodup_range 2500)
  exact ⟨h.1, h.2.2.2.2.1⟩

end SalesGen

namespace SalesGen

/-! ### Corruption injectors

The core injector `introduce_messiness` (`util/generate_sales_data.py`,
lines 332-389) and the archive generator's injector `introduce_error`
(`archive/generate_data.py`, lines 22-38). -/

/-- Draws consumed by one `introduce_messiness` call, one field per random
call site (call sites on distinct control-flow paths may share a
field). -/
structure MessDraws where
  gate : ℚ       -- `random.random() > messiness_rate` (line 334)
  colA : ℚ       -- first column-specific `random.random()` (342/348/354/358/362)
  colB : ℚ       -- second column-specific `random.random()` (344/350/364)
  colChoice : Nat -- column-specific `random.choice` (355/359)
  messType : Nat -- `random.choice(mess_types)` (line 368)
  sub : ℚ        -- `random.random()` inside null/extra_space/case_issue (371/381/384)
  typoPos : Nat  -- `random.randint(1, len(value)-2)` (line 377)
  subChoice : Nat -- `random.choice` inside typo/format_error (378/387)

/-- `mess_types` (line 338). -/
def mess_types : List String :=
  ["null", "format_error", "typo", "extra_space", "case_issue",
   "multiple_values", "invalid_value"]

/-- Single-character typo injection (lines 376-378):
`value[:pos] + random.choice('xyz123@#') + value[pos+1:]` with
`pos = random.randint(1, len(value)-2)`. -/
def typo_string (s : String) (typoPos subChoice : Nat) : String :=
  let pos := 1 + typoPos % (s.length - 2)
  let c := pyChoice "xyz123@#".toList subChoice
  String.mk (s.toList.take pos ++ [c] ++ s.toList.drop (pos + 1))

/-- The general messiness tier (lines 367-389): an `elif` chain on the
drawn `mess_type`, each arm guarded by an `isinstance` test that falls
through to `return value` when it fails. -/
def general_messiness (value : PyVal) (d : MessDraws) : PyVal :=
  let mess_type := pyChoice mess_types d.messType
  if mess_type = "null" then
    (if d.sub < 7/10 then .NaN else .NoneV)
  else if mess_type = "multiple_values" then
    (match value with
      | .Str s => .Str (s ++ "|" ++ s ++ "_alt")
      | _ => value)
  else if mess_type = "typo" then
    (match value with
      | .Str s => if s.length > 3 then .Str (typo_string s d.typoPos d.subChoice) else .Str s
      | _ => value)
  else if mess_type = "extra_space" then
    (match value with
      | .Str s => if d.sub < 1/2 then .Str ("  " ++ s ++ "  ") else .Str (s ++ "   ")
      | _ => value)
  else if mess_type = "case_issue" then
    (match value with
      | .Str s => if d.sub < 1/2 then .Str s.toUpper else .Str s.toLower
      | _ => value)
  else if mess_type = "format_error" then
    (if pyIsNum value then
        .Str (pyStr value ++ pyChoice ["_invalid", ".0.0", "ERROR"] d.subChoice)
      else value)
  else value

/-- `introduce_messiness` (lines 332-389).  The result is `Except` because
the email arm at line 345 calls `value.replace(...)`, which raises
`AttributeError` when `value` is not a string (e.g. an already-null
`np.nan`). -/
def introduce_messiness (value : PyVal) (column_name : String)
    (messiness_rate : ℚ) (d : MessDraws) : Except String PyVal :=
  if d.gate > messiness_rate then .ok value
  else if strContains column_name "email" then
    (if d.colA < 3/10 then .ok (.Str ((pyStr value).replace "@" ""))
      else if d.colB < 2/10 then
        (match value with
          | .Str s => .ok (.Str (s ++ "|" ++ s.replace "gmail" "yahoo"))
          | _ => .error "AttributeError")
      else .ok (general_messiness value d))
  else if strContains column_name "phone" then
    (if d.colA < 1/4 then .ok .NaN
      else if d.colB < 2/10 then
        .ok (.Str (((((pyStr value).replace "-" "").replace "(" "").replace ")" "").replace " " ""))
      else .ok (general_messiness value d))
  else if strContains column_name "age" then
    (if d.colA < 3/20 then
        .ok (pyChoice [.IntV (-5), .IntV 150, .IntV 999, .Str "25 years old", .NoneV]
          d.colChoice)
      else .ok (general_messiness value d))
  else if strContains column_name "quantity" then
    (if d.colA < 2/25 then
        .ok (pyChoice [.IntV (-1), .IntV 0, .Str "two", .Str "", .IntV 999] d.colChoice)
      else .ok (general_messiness value d))
  else if strContains column_name "price" || strContains column_name "cost" ||
      strContains column_name "amount" then
    (if d.colA < 1/20 then
        .ok (if pyIsNum value then .Str ("$" ++ pyStr value) else value)
      else if d.colB < 3/100 then .ok (.Str (pyStr value ++ "_error"))
      else .ok (general_messiness value d))
  else .ok (general_messiness value d)

/-- `string.ascii_letters + string.digits`, the population of
`random_string` (`archive/generate_data.py`, lines 19-20). -/
def ascii_alphanum : List Char :=
  "abcdefghijklmnopqrstuvwxyzABCDEFGHIJKLMNOPQRSTUVWXYZ0123456789".toList

/-- `random_string(n)` (archive, lines 19-20): `n` uniform draws from the
alphanumeric population, one draw per character. -/
def random_string (cs : Nat → Nat) (n : Nat) : String :=
  String.mk ((List.range n).map (fun i => pyChoice ascii_alphanum (cs i)))

/-- Draws consumed by one archive `introduce_error` call. -/
structure ErrDraws where
  gate : ℚ          -- `random.random() < error_rate` (line 26)
  choicePick : Nat  -- `random.choice([...])` (line 27)
  rs5 : Nat → Nat   -- character draws of `random_string(5)` (line 32)
  rs3 : Nat → Nat   -- character draws of `random_string(3)` (line 33)

/-- Archive `introduce_error` (lines 22-38): guarded by `pd.isna(val)` —
an already-null value is returned unchanged before any draw. -/
def introduce_error (val : PyVal) (error_rate : ℚ) (d : ErrDraws) : PyVal :=
  if pyIsNa val then val
  else if d.gate < error_rate then
    pyChoice [.NoneV, .Str "", .Str "??", .Str (pyStr val ++ "," ++ pyStr val),
      .Str (random_string d.rs5 5),
      .Str (pyStr val ++ " " ++ random_string d.rs3 3),
      .IntV (-9999), .IntV 9999999999] d.choicePick
  else val

/-- C7 counterexample: the core injector is not a no-op on an already-null
input — with the messiness gate fired and mess type `format_error`,
`np.nan` (a Python float) is replaced by the string `"nan_invalid"`; and
on an email-named column, corrupting `np.nan` raises `AttributeError`
(`value.replace` on a float). -/
theorem introduce_messiness_corrupts_null :
    introduce_messiness .NaN "order_status" (12/100) ⟨0, 0, 0, 0, 1, 0, 0, 0⟩ =
      .ok (.Str "nan_invalid") ∧
    PyVal.Str "nan_invalid" ≠ PyVal.NaN ∧
    introduce_messiness .NaN "customer_email" (12/100) ⟨0, 1/2, 1/10, 0, 0, 0, 0, 0⟩ =
      .error "AttributeError" := by
  refine ⟨?_, by decide, ?_⟩
  · have e1 : strContains "order_status" "email" = false := rfl
    have e2 : strContains "order_status" "phone" = false := rfl
    have e3 : strContains "order_status" "age" = false := rfl
    have e4 : strContains "order_status" "quantity" = false := rfl
    have e5 : strContains "order_status" "price" = false := rfl
    have e6 : strContains "order_status" "cost" = false := rfl
    have e7 : strContains "order_status" "amount" = false := rfl
    norm_num [introduce_messiness, general_messiness, e1, e2, e3, e4, e5, e6, e7,
      mess_types, pyChoice, pyStr, pyIsNum]
    rfl
  · have e1 : strContains "customer_email" "email" = true := rfl
    norm_num [introduce_messiness, e1]

/-- C7 (amended): only the archive injector guards nulls — for every
already-null input it returns the value unchanged (and, being a total
match on the value, never raises); the core injector returns an
already-null input unchanged only when the messiness gate does not fire. -/
theorem null_corruption_noop (val : PyVal) (column : String) (rate : ℚ)
    (dm : MessDraws) (de : ErrDraws) (hna : pyIsNa val = true) :
    introduce_error val rate de = val ∧
    (if rate < dm.gate then introduce_messiness val column rate dm = .ok val
      else True) := by
  constructor
  · unfold introduce_error
    rw [if_pos hna]
  · split
    · rename_i hgate
      unfold introduce_messiness
      rw [if_pos (by exact hgate)]
    · trivial

/-- Witness for C7's amended claim at `np.nan` with a non-firing gate. -/
theorem null_corruption_noop_witness :
    introduce_error .NaN (5/100) ⟨1, 0, fun _ => 0, fun _ => 0⟩ = .NaN ∧
    (if (5/100 : ℚ) < (1 : ℚ) then
        introduce_messiness .NaN "order_status" (5/100) ⟨1, 0, 0, 0, 0, 0, 0, 0⟩ =
          .ok .NaN
      else True) :=
  null_corruption_noop .NaN "order_status" (5/100) ⟨1, 0, 0, 0, 0, 0, 0, 0⟩
    ⟨1, 0, fun _ => 0, fun _ => 0⟩ rfl

end SalesGen

namespace SalesGen

/-! ### Order-id generation (`generate_batch_data` line 398,
`setup_customers` line 145)

`order_id` is `str(uuid.uuid4())` per row.  `uuid.uuid4()` reads 16 bytes
of OS entropy (`os.urandom`); it is not derived from the `random` /
`numpy.random` generators seeded with 42 at lines 11-13, so it is modelled
as a function of a separate entropy stream that the seed does not
determine. -/

/-- A version-4 UUID string derived from an OS-entropy word (hex
rendering of 128 random bits). -/
def uuid4_hex (r : Nat) : String :=
  String.mk (Nat.toDigits 16 (r % 2 ^ 128))

/-- The `order_id` column of one batch (line 398):
`[str(uuid.uuid4()) for _ in range(batch_size)]`. -/
def batch_order_ids (entropy : Nat → Nat) (batch_size : Nat) : List String :=
  (List.range batch_size).map (fun i => uuid4_hex (entropy i))

/-- The `order_id` column of a run with a given PRNG seed: the seed is
unused because `uuid.uuid4()` draws from OS entropy, never from the seeded
generators. -/
def run_order_ids (_seed : Nat) (entropy : Nat → Nat) (batch_size : Nat) :
    List String :=
  batch_order_ids entropy batch_size

/-- C1: the generator's output is not reproducible from the integer seed —
two runs with the identical seed 42 (and identical row/batch
configuration, here one row) differ in the `order_id` column whenever the
OS entropy differs, because `uuid.uuid4()` ignores `random.seed(42)` and
`np.random.seed(42)`. -/
theorem order_ids_not_seed_determined :
    run_order_ids 42 (fun _ => 0) 1 ≠ run_order_ids 42 (fun _ => 1) 1 := by
  decide

end SalesGen
